import Mathlib

/-!
Shallow embedding of `src/entrypoint.py` of the release-freeze-enforcer
repository, and proofs of the specification claims about it.

Modelling conventions:
* Instants are `Int` values on a single timeline (seconds).  The Python code
  compares `datetime` values; every comparison the claims are about happens
  between values living on one consistent timeline per run (zoned local time
  in the fixed branch, naive local time in the recurring branch), so a single
  `Int` timeline is faithful.  A duration of `m` minutes contributes `m * 60`.
* Configuration inputs (`get_input`) are `Option String`: `none` is an unset
  environment variable, `some s` a set one (possibly empty).  Python string
  truthiness (`if not x`) is `truthy`.
* External library calls and ambient reads are oracles in `Ext`:
  `parseTZ` (pytz.timezone success), `parseDate` (dateutil.parser.parse
  followed by localization, yielding the comparable instant), `parseIntStr`
  (Python `int(...)`), `parseRRule` (dateutil.rrule.rrulestr with the given
  dtstart; the returned function is `rule.before(t, inc=True)`, the most
  recent occurrence at or before `t`), `eventName` (`GITHUB_EVENT_NAME`),
  `labelsRead` (the pull-request label names extracted from the event payload;
  `none` covers every failure: missing `GITHUB_EVENT_PATH`, unreadable file,
  malformed JSON), `actor` (`GITHUB_ACTOR`).
* `Outcome.fatal msg` models `sys.exit(1)` reached before the output section
  (lines 214-225); `Outcome.done r` models a run that reaches the output
  section and exits with `r.exit_code`.  Error messages keep the literal text
  of the `::error::` prints, without the appended Python exception text.
-/

namespace FreezeEnforcer

/-- Python truthiness of a `get_input` result: `None` and the empty string are
falsy, every other string truthy. -/
def truthy : Option String → Bool
  | none => false
  | some s => s != ""

/-- `get_input(name, default)`: the default applies only when the variable is
unset, an empty set value stays empty. -/
def getInputD (o : Option String) (d : String) : String :=
  o.getD d

/-- The action inputs read at the top of `main` (lines 56-69), each an
`INPUT_*` environment variable. -/
structure Inputs where
  environment : Option String := none
  behavior : Option String := none
  timezone : Option String := none
  freeze_start : Option String := none
  freeze_end : Option String := none
  rrule : Option String := none
  duration_minutes : Option String := none
  allow_override_label : Option String := none
  allow_override_actor : Option String := none
  fail_message : Option String := none

/-- The external collaborators of `main`: library parsers and ambient
process state, injected as oracles (see the module comment). -/
structure Ext where
  parseTZ : String → Bool
  parseDate : String → Option Int
  parseIntStr : String → Option Int
  parseRRule : String → Int → Option (Int → Option Int)
  eventName : Option String
  labelsRead : Option (List String)
  actor : Option String

/-- The freeze-evaluation state assembled in section 2 of `main`
(lines 79-160). -/
structure EvalState where
  is_frozen : Bool
  window_type : String
  window_name : String
  active_start : Option Int
  active_end : Option Int
  reason : String
deriving Repr, DecidableEq

/-- The initial state of lines 79-84: no window active. -/
def initState : EvalState :=
  ⟨false, "NONE", "", none, none, "No active freeze window"⟩

/-- Fixed-window membership test of line 104: `dt_start <= now_local <= dt_end`,
both bounds inclusive. -/
def fixedFrozen (dt_start dt_end now : Int) : Bool :=
  decide (dt_start ≤ now ∧ now ≤ dt_end)

/-- Recurring-window membership test of lines 144-149: take the most recent
occurrence at or before `now` (`rule.before(now, inc=True)`); frozen when it
exists and `now < last_start + duration` minutes. -/
def recurringFrozen (rule : Int → Option Int) (duration now : Int) : Bool :=
  match rule now with
  | some last_start => decide (now < last_start + duration * 60)
  | none => false

/-- Section 2 of `main` (lines 86-160): the mutual-exclusivity check, then the
fixed-window branch, then the recurring branch; `Except.error` is a
`sys.exit(1)` inside this section. -/
def evalWindows (ext : Ext) (inp : Inputs) (now : Int) : Except String EvalState :=
  if (truthy inp.freeze_start || truthy inp.freeze_end) && truthy inp.rrule then
    .error "Cannot specify both fixed window (freeze_start/end) and recurring window (rrule)."
  else if truthy inp.freeze_start && truthy inp.freeze_end then
    match ext.parseDate (inp.freeze_start.getD ""), ext.parseDate (inp.freeze_end.getD "") with
    | some dt_start, some dt_end =>
      if fixedFrozen dt_start dt_end now then
        .ok ⟨true, "FIXED", "Fixed Freeze Window", some dt_start, some dt_end,
             "Current time is within fixed freeze window"⟩
      else .ok initState
    | _, _ => .error "Failed to parse fixed window dates"
  else if truthy inp.rrule then
    if !truthy inp.duration_minutes then
      .error "Input 'duration_minutes' is required when using 'rrule'."
    else
      match ext.parseIntStr (inp.duration_minutes.getD "") with
      | none => .error "Failed to process rrule"
      | some duration =>
        match ext.parseRRule (inp.rrule.getD "") now with
        | none => .error "Failed to process rrule"
        | some rule =>
          match rule now with
          | some last_start =>
            if recurringFrozen rule duration now then
              .ok ⟨true, "RRULE", "Recurring Freeze Window", some last_start,
                   some (last_start + duration * 60),
                   "Current time is within recurring freeze window"⟩
            else .ok initState
          | none => .ok initState
  else .ok initState

/-- Section 3 of `main` (lines 162-192): label override first (pull-request
events only, payload failures degrade to no override), then the actor
override, guarded by `not overridden`. -/
def resolveOverride (is_frozen : Bool) (cfgLabel cfgActor : Option String)
    (eventName : Option String) (labelsRead : Option (List String))
    (actor : Option String) : Bool × String :=
  if is_frozen then
    let labelRes : Bool × String :=
      if truthy cfgLabel && eventName = some "pull_request" then
        match labelsRead with
        | some pr_labels =>
          if cfgLabel.getD "" ∈ pr_labels then
            (true, "PR label '" ++ cfgLabel.getD "" ++ "' matched")
          else (false, "")
        | none => (false, "")
      else (false, "")
    if labelRes.1 then labelRes
    else if truthy cfgActor then
      match actor with
      | some a => if a = cfgActor.getD "" then
          (true, "Actor '" ++ a ++ "' is allowed to override")
        else (false, "")
      | none => (false, "")
    else labelRes
  else (false, "")

/-- Section 4 of `main` (lines 194-211): the decision table.  `behavior` is
the already lowercased behavior string. -/
def decisionOf (is_frozen overridden : Bool) (behavior : String) : String × Nat :=
  if is_frozen && !overridden then
    if behavior = "block" then ("BLOCK", 1)
    else if behavior = "warn" then ("WARN", 0)
    else ("ALLOW", 0)
  else ("ALLOW", 0)

/-- The run record a non-fatal run assembles and writes in section 5
(lines 214-225). -/
structure RunResult where
  is_frozen : Bool
  decision : String
  exit_code : Nat
  window_type : String
  window_name : String
  reason : String
  active_start : Option Int
  active_end : Option Int
  overridden : Bool
  override_reason : String
  environment : String
deriving Repr, DecidableEq

/-- The key/value pairs `set_output` writes in lines 214-225 (instants
rendered numerically in place of `isoformat`). -/
def RunResult.outputs (r : RunResult) : List (String × String) :=
  [("is_frozen", if r.is_frozen then "true" else "false"),
   ("decision", r.decision),
   ("environment", r.environment),
   ("window_type", r.window_type),
   ("window_name", r.window_name),
   ("reason", r.reason),
   ("freeze_start", match r.active_start with | some t => toString t | none => ""),
   ("freeze_end", match r.active_end with | some t => toString t | none => ""),
   ("overridden", if r.overridden then "true" else "false"),
   ("override_reason", r.override_reason)]

/-- A whole run: `fatal msg` is `sys.exit(1)` before the output section,
`done r` a run that wrote its outputs and exits with `r.exit_code`. -/
inductive Outcome where
  | fatal (msg : String)
  | done (r : RunResult)
deriving Repr, DecidableEq

/-- Whether the run aborted fatally before writing outputs. -/
def Outcome.fatalQ : Outcome → Bool
  | .fatal _ => true
  | .done _ => false

/-- The process exit code of a run: every fatal path in `main` exits 1. -/
def Outcome.exitCodeOf : Outcome → Nat
  | .fatal _ => 1
  | .done r => r.exit_code

/-- The output pairs the run wrote: none on a fatal abort. -/
def Outcome.outputs : Outcome → List (String × String)
  | .fatal _ => []
  | .done r => r.outputs

/-- Sections 3-5 of `main` (lines 162-225) on a completed window evaluation:
override resolution, the decision, the overridden-reason rewrite of line 211
and the record the outputs are written from. -/
def assemble (ext : Ext) (inp : Inputs) (st : EvalState) : RunResult :=
  let behavior := (getInputD inp.behavior "block").toLower
  let ov := resolveOverride st.is_frozen inp.allow_override_label
    inp.allow_override_actor ext.eventName ext.labelsRead ext.actor
  let d := decisionOf st.is_frozen ov.1 behavior
  let reason := if st.is_frozen && ov.1 then "Frozen but overridden: " ++ ov.2
    else st.reason
  ⟨st.is_frozen, d.1, d.2, st.window_type, st.window_name, reason,
   st.active_start, st.active_end, ov.1, ov.2, inp.environment.getD ""⟩

/-- `main` of `src/entrypoint.py`: input validation (lines 56-71), window
evaluation (79-160), then override resolution, decision and result assembly
(162-245). -/
def main (ext : Ext) (inp : Inputs) (now : Int) : Outcome :=
  if !truthy inp.environment then
    .fatal "Input 'environment' is required."
  else if !ext.parseTZ (getInputD inp.timezone "UTC") then
    .fatal ("Unknown timezone: " ++ getInputD inp.timezone "UTC")
  else
    match evalWindows ext inp now with
    | .error m => .fatal m
    | .ok st => .done (assemble ext inp st)

/-!  Theorems settling the specification claims. -/

/-- A set, non-empty input is truthy. -/
theorem truthy_some (s : String) (h : s ≠ "") : truthy (some s) = true := by
  simp [truthy, h]

/-- An unset input is falsy. -/
theorem truthy_none : truthy none = false := rfl

/-- C1: for every combination of `(isFrozen, overridden, behavior)` the final
decision and exit code match the §4.4 table: not frozen gives Allow with exit
0; frozen and overridden gives Allow with exit 0; frozen and not overridden
gives Block with exit 1 for behavior `block`, Warn with exit 0 for `warn`,
and Allow with exit 0 for `allow` or any other behavior value. -/
theorem decision_table_complete (o : Bool) (b : String) :
    decisionOf false o b = ("ALLOW", 0) ∧
    decisionOf true true b = ("ALLOW", 0) ∧
    decisionOf true false "block" = ("BLOCK", 1) ∧
    decisionOf true false "warn" = ("WARN", 0) ∧
    (b ≠ "block" → b ≠ "warn" → decisionOf true false b = ("ALLOW", 0)) := by
  refine ⟨rfl, rfl, rfl, rfl, fun h1 h2 => ?_⟩
  simp [decisionOf, h1, h2]

/-- Witness for C1 at the concrete behavior string `"allow"`. -/
theorem decision_table_complete_witness :
    decisionOf false true "allow" = ("ALLOW", 0) ∧
    decisionOf true true "allow" = ("ALLOW", 0) ∧
    decisionOf true false "block" = ("BLOCK", 1) ∧
    decisionOf true false "warn" = ("WARN", 0) ∧
    ("allow" ≠ "block" → "allow" ≠ "warn" → decisionOf true false "allow" = ("ALLOW", 0)) :=
  decision_table_complete true "allow"

/-- C3: with both fixed-window bounds configured and parsed to `S` and `E`,
the evaluation reports `is_frozen = true` exactly when `S ≤ now ≤ E`, both
bounds inclusive; strictly before `S` or strictly after `E` it reports
`false`. -/
theorem fixed_window_inclusive (ext : Ext) (inp : Inputs) (now S E : Int)
    (fs fe : String)
    (hfs : inp.freeze_start = some fs) (hfs' : fs ≠ "")
    (hfe : inp.freeze_end = some fe) (hfe' : fe ≠ "")
    (hnr : truthy inp.rrule = false)
    (hpS : ext.parseDate fs = some S) (hpE : ext.parseDate fe = some E) :
    ∃ st, evalWindows ext inp now = .ok st ∧
      (st.is_frozen = true ↔ (S ≤ now ∧ now ≤ E)) ∧
      (now < S → st.is_frozen = false) ∧
      (E < now → st.is_frozen = false) := by
  have h : evalWindows ext inp now =
      (if fixedFrozen S E now then
        .ok ⟨true, "FIXED", "Fixed Freeze Window", some S, some E,
             "Current time is within fixed freeze window"⟩
      else .ok initState) := by
    simp [evalWindows, hfs, hfe, hnr, truthy_some fs hfs', truthy_some fe hfe', hpS, hpE]
  by_cases hin : S ≤ now ∧ now ≤ E
  · refine ⟨_, by rw [h, if_pos]; exact of_decide_eq_true (by simp [fixedFrozen, hin]), ?_, ?_, ?_⟩
    · simpa using hin
    · intro hlt; exact absurd hin.1 (not_le.mpr hlt)
    · intro hlt; exact absurd hin.2 (not_le.mpr hlt)
  · refine ⟨initState, by rw [h, if_neg]; simpa [fixedFrozen] using hin, ?_, ?_, ?_⟩
    · simp [initState, hin]
    · intro _; rfl
    · intro _; rfl

/-- Witness for C3: window `[10, 20]`, evaluated at `now = 15`. -/
theorem fixed_window_inclusive_witness :
    ∃ st, evalWindows
        ⟨fun _ => true, fun s => if s = "a" then some 10 else some 20,
         fun _ => none, fun _ _ => none, none, none, none⟩
        { environment := some "production", freeze_start := some "a",
          freeze_end := some "b" } 15 = .ok st ∧
      (st.is_frozen = true ↔ ((10:Int) ≤ 15 ∧ (15:Int) ≤ 20)) ∧
      ((15:Int) < 10 → st.is_frozen = false) ∧
      ((20:Int) < 15 → st.is_frozen = false) :=
  fixed_window_inclusive _ _ 15 10 20 "a" "b" rfl (by decide) rfl (by decide) rfl
    (by simp) (by simp)

/-- C2: for a recurring window whose most recent occurrence at or before
`now` is `O` (the contract of `rule.before(now, inc=True)` guarantees
`O ≤ now`) and whose duration is `D` minutes, the evaluation reports
`is_frozen = true` exactly when `O ≤ now < O + D` minutes, and at
`now = O + D` minutes exactly it reports `false`. -/
theorem recurrence_half_open (ext : Ext) (inp : Inputs) (now O D : Int)
    (rule : Int → Option Int) (rs ds : String)
    (hfs : truthy inp.freeze_start = false) (hfe : truthy inp.freeze_end = false)
    (hr : inp.rrule = some rs) (hrs : rs ≠ "")
    (hd : inp.duration_minutes = some ds) (hds : ds ≠ "")
    (hpi : ext.parseIntStr ds = some D)
    (hpr : ext.parseRRule rs now = some rule)
    (hocc : rule now = some O) (hO : O ≤ now) :
    ∃ st, evalWindows ext inp now = .ok st ∧
      (st.is_frozen = true ↔ (O ≤ now ∧ now < O + D * 60)) ∧
      (now = O + D * 60 → st.is_frozen = false) := by
  have h : evalWindows ext inp now =
      (if recurringFrozen rule D now then
        .ok ⟨true, "RRULE", "Recurring Freeze Window", some O, some (O + D * 60),
             "Current time is within recurring freeze window"⟩
      else .ok initState) := by
    simp [evalWindows, hfs, hfe, hr, truthy_some rs hrs, hd, truthy_some ds hds,
      hpi, hpr, hocc]
  have hfz : recurringFrozen rule D now = decide (now < O + D * 60) := by
    simp [recurringFrozen, hocc]
  by_cases hin : now < O + D * 60
  · refine ⟨_, by rw [h, if_pos]; rw [hfz]; simpa using hin, ?_, ?_⟩
    · simp [hO, hin]
    · intro heq; omega
  · refine ⟨initState, by rw [h, if_neg]; rw [hfz]; simpa using hin, ?_, ?_⟩
    · simp [initState]; omega
    · intro _; rfl

/-- Witness for C2: an occurrence at `0`, duration one minute, evaluated at
`now = 30` seconds. -/
theorem recurrence_half_open_witness :
    ∃ st, evalWindows
        ⟨fun _ => true, fun _ => none, fun s => if s = "1" then some 1 else none,
         fun _ _ => some (fun t => if (0:Int) ≤ t then some 0 else none),
         none, none, none⟩
        { environment := some "production", rrule := some "FREQ=DAILY",
          duration_minutes := some "1" } 30 = .ok st ∧
      (st.is_frozen = true ↔ ((0:Int) ≤ 30 ∧ (30:Int) < 0 + 1 * 60)) ∧
      ((30:Int) = 0 + 1 * 60 → st.is_frozen = false) :=
  recurrence_half_open _ _ 30 0 1 (fun t => if (0:Int) ≤ t then some 0 else none)
    "FREQ=DAILY" "1" rfl rfl rfl (by decide) rfl (by decide) (by simp) rfl
    (by simp) (by decide)

/-- `main` under a passed environment check and timezone parse, when the
window-evaluation section exits fatally. -/
theorem main_of_evalWindows_error (ext : Ext) (inp : Inputs) (now : Int) (m : String)
    (henv : truthy inp.environment = true)
    (htz : ext.parseTZ (getInputD inp.timezone "UTC") = true)
    (h : evalWindows ext inp now = .error m) :
    main ext inp now = .fatal m := by
  simp [main, henv, htz, h]

/-- `main` under a passed environment check and timezone parse, when the
window-evaluation section completes. -/
theorem main_of_evalWindows_ok (ext : Ext) (inp : Inputs) (now : Int) (st : EvalState)
    (henv : truthy inp.environment = true)
    (htz : ext.parseTZ (getInputD inp.timezone "UTC") = true)
    (h : evalWindows ext inp now = .ok st) :
    main ext inp now = .done (assemble ext inp st) := by
  simp [main, henv, htz, h]

/-- The mutual-exclusivity check fires whenever a fixed bound and a rule are
both truthy. -/
theorem evalWindows_mutex_error (ext : Ext) (inp : Inputs) (now : Int)
    (hfix : truthy inp.freeze_start = true ∨ truthy inp.freeze_end = true)
    (hr : truthy inp.rrule = true) :
    evalWindows ext inp now =
      .error "Cannot specify both fixed window (freeze_start/end) and recurring window (rrule)." := by
  rcases hfix with h | h <;> simp [evalWindows, h, hr]

/-- C5: supplying both a fixed-window input (`freeze_start` or `freeze_end`)
and a recurrence rule aborts fatally (exit 1, nothing written) before any
window-membership evaluation, for every current instant. -/
theorem mutual_exclusivity_fatal (ext : Ext) (inp : Inputs) (now : Int)
    (henv : truthy inp.environment = true)
    (htz : ext.parseTZ (getInputD inp.timezone "UTC") = true)
    (hfix : truthy inp.freeze_start = true ∨ truthy inp.freeze_end = true)
    (hr : truthy inp.rrule = true) :
    main ext inp now =
      .fatal "Cannot specify both fixed window (freeze_start/end) and recurring window (rrule)." ∧
    (main ext inp now).exitCodeOf = 1 ∧ (main ext inp now).outputs = [] := by
  have h1 := main_of_evalWindows_error ext inp now _ henv htz
    (evalWindows_mutex_error ext inp now hfix hr)
  exact ⟨h1, by rw [h1]; rfl, by rw [h1]; rfl⟩

/-- Witness for C5: both `freeze_start` and `rrule` set, at `now = 0`. -/
theorem mutual_exclusivity_fatal_witness :
    main ⟨fun _ => true, fun _ => none, fun _ => none, fun _ _ => none, none, none, none⟩
        { environment := some "production", freeze_start := some "2023-12-24T00:00",
          rrule := some "FREQ=WEEKLY;BYDAY=SA" } 0 =
      .fatal "Cannot specify both fixed window (freeze_start/end) and recurring window (rrule)." ∧
    (main ⟨fun _ => true, fun _ => none, fun _ => none, fun _ _ => none, none, none, none⟩
        { environment := some "production", freeze_start := some "2023-12-24T00:00",
          rrule := some "FREQ=WEEKLY;BYDAY=SA" } 0).exitCodeOf = 1 ∧
    (main ⟨fun _ => true, fun _ => none, fun _ => none, fun _ _ => none, none, none, none⟩
        { environment := some "production", freeze_start := some "2023-12-24T00:00",
          rrule := some "FREQ=WEEKLY;BYDAY=SA" } 0).outputs = [] :=
  mutual_exclusivity_fatal _ _ 0 rfl rfl (Or.inl rfl) rfl

/-- C6: when the evaluation is frozen and both the label and the actor
override are configured and would each match, the recorded override is the
label one: `overridden = true` with reason `PR label '<label>' matched`;
the actor reason is never recorded. -/
theorem label_override_priority (l a : String) (ls : List String)
    (hl : l ≠ "") (ha : a ≠ "") (hmem : l ∈ ls) :
    resolveOverride true (some l) (some a) (some "pull_request") (some ls) (some a) =
      (true, "PR label '" ++ l ++ "' matched") := by
  simp [resolveOverride, truthy_some l hl, hmem]

/-- Witness for C6: label `hotfix-override` present on the pull request,
actor `maintainer` equal to the configured override actor. -/
theorem label_override_priority_witness :
    resolveOverride true (some "hotfix-override") (some "maintainer")
        (some "pull_request") (some ["hotfix-override", "bug"]) (some "maintainer") =
      (true, "PR label '" ++ "hotfix-override" ++ "' matched") :=
  label_override_priority "hotfix-override" "maintainer" ["hotfix-override", "bug"]
    (by decide) (by decide) (by simp)

/-- A run that is not frozen records no override. -/
theorem resolveOverride_not_frozen (cfgLabel cfgActor eventName actor : Option String)
    (labelsRead : Option (List String)) :
    resolveOverride false cfgLabel cfgActor eventName labelsRead actor = (false, "") :=
  rfl

/-- C7: in every completed run the reported `overridden` flag is `true` only
if `is_frozen` is `true`: an evaluation that is not frozen never reports an
override, whatever override labels or actors are configured and present. -/
theorem overridden_only_if_frozen (ext : Ext) (inp : Inputs) (now : Int) (r : RunResult)
    (h : main ext inp now = .done r) (ho : r.overridden = true) :
    r.is_frozen = true := by
  cases he : truthy inp.environment with
  | false =>
    have hfatal : main ext inp now = .fatal "Input 'environment' is required." := by
      simp [main, he]
    rw [hfatal] at h; cases h
  | true =>
    cases ht : ext.parseTZ (getInputD inp.timezone "UTC") with
    | false =>
      have hfatal : main ext inp now =
          .fatal ("Unknown timezone: " ++ getInputD inp.timezone "UTC") := by
        simp [main, he, ht]
      rw [hfatal] at h; cases h
    | true =>
      cases hew : evalWindows ext inp now with
      | error m =>
        rw [main_of_evalWindows_error ext inp now m he ht hew] at h; cases h
      | ok st =>
        rw [main_of_evalWindows_ok ext inp now st he ht hew] at h
        cases h
        cases hf : st.is_frozen with
        | true => exact hf
        | false =>
          have : (assemble ext inp st).overridden =
              (resolveOverride st.is_frozen inp.allow_override_label
                inp.allow_override_actor ext.eventName ext.labelsRead ext.actor).1 := rfl
          rw [this, hf, resolveOverride_not_frozen] at ho
          cases ho

/-- Concrete oracles of the C7 witness run: fixed window `[10, 20]`, actor
`maintainer` configured and matching. -/
def extW : Ext :=
  ⟨fun _ => true, fun s => if s = "a" then some 10 else some 20,
   fun _ => none, fun _ _ => none, none, none, some "maintainer"⟩

/-- Concrete inputs of the C7 witness run. -/
def inpW : Inputs :=
  { environment := some "production", freeze_start := some "a",
    freeze_end := some "b", allow_override_actor := some "maintainer" }

/-- The record the C7 witness run writes. -/
def rW : RunResult :=
  ⟨true, "ALLOW", 0, "FIXED", "Fixed Freeze Window",
   "Frozen but overridden: Actor 'maintainer' is allowed to override",
   some 10, some 20, true, "Actor 'maintainer' is allowed to override",
   "production"⟩

/-- Witness for C7: a frozen, actor-overridden run really reports
`is_frozen = true`. -/
theorem overridden_only_if_frozen_witness : rW.is_frozen = true :=
  overridden_only_if_frozen extW inpW 15 rW rfl rfl

/-- With an unreadable payload the label mechanism yields no override,
whatever label is configured. -/
theorem resolveOverride_labelsRead_none (f : Bool) (cfgLabel cfgActor : Option String)
    (eventName actor : Option String) :
    resolveOverride f cfgLabel cfgActor eventName none actor =
      resolveOverride f none cfgActor eventName none actor := by
  cases f <;> simp [resolveOverride, ite_self, truthy_none]

/-- C8: when the label override is configured and the event is a pull-request
event, a failure to read or parse the event payload (`labelsRead = none`
covers a missing path, an unreadable file and malformed JSON) never aborts
the run: the whole run, its decision and its exit code equal those of the
same run with no label override configured (in particular the actor override
is still checked). -/
theorem payload_failure_degrades (ext : Ext) (inp : Inputs) (now : Int)
    (hl : truthy inp.allow_override_label = true)
    (hev : ext.eventName = some "pull_request")
    (hfail : ext.labelsRead = none) :
    main ext inp now = main ext { inp with allow_override_label := none } now := by
  cases he : truthy inp.environment with
  | false => simp [main, he]
  | true =>
    cases ht : ext.parseTZ (getInputD inp.timezone "UTC") with
    | false => simp [main, he, ht]
    | true =>
      cases hew : evalWindows ext inp now with
      | error m =>
        rw [main_of_evalWindows_error ext inp now m he ht hew,
          main_of_evalWindows_error ext { inp with allow_override_label := none } now m
            he ht hew]
      | ok st =>
        rw [main_of_evalWindows_ok ext inp now st he ht hew,
          main_of_evalWindows_ok ext { inp with allow_override_label := none } now st
            he ht hew]
        simp only [assemble, hfail]
        rw [resolveOverride_labelsRead_none]

/-- Witness for C8: a frozen fixed window, label override configured, event a
pull request, payload unreadable, actor override matching. -/
theorem payload_failure_degrades_witness :
    main ⟨fun _ => true, fun s => if s = "a" then some 10 else some 20,
        fun _ => none, fun _ _ => none, some "pull_request", none, some "maintainer"⟩
      { environment := some "production", freeze_start := some "a",
        freeze_end := some "b", allow_override_label := some "hotfix-override",
        allow_override_actor := some "maintainer" } 15 =
    main ⟨fun _ => true, fun s => if s = "a" then some 10 else some 20,
        fun _ => none, fun _ _ => none, some "pull_request", none, some "maintainer"⟩
      { ({ environment := some "production", freeze_start := some "a",
           freeze_end := some "b", allow_override_label := some "hotfix-override",
           allow_override_actor := some "maintainer" } : Inputs) with
        allow_override_label := none } 15 :=
  payload_failure_degrades _ _ 15 rfl rfl rfl

/-- C9: every fatal input error of §7 — missing `environment`, unrecognized
timezone, both window kinds supplied, `rrule` without `duration_minutes`,
unparseable fixed-window dates, unparseable recurrence rule (or duration
integer) — aborts the run, and a fatal abort exits 1 with no output pair
written. -/
theorem fatal_errors_abort_before_output (ext : Ext) (inp : Inputs) (now : Int) :
    (truthy inp.environment = false →
      main ext inp now = .fatal "Input 'environment' is required.") ∧
    (truthy inp.environment = true →
      ext.parseTZ (getInputD inp.timezone "UTC") = false →
      main ext inp now = .fatal ("Unknown timezone: " ++ getInputD inp.timezone "UTC")) ∧
    (truthy inp.environment = true →
      ext.parseTZ (getInputD inp.timezone "UTC") = true →
      (truthy inp.freeze_start = true ∨ truthy inp.freeze_end = true) →
      truthy inp.rrule = true →
      main ext inp now =
        .fatal "Cannot specify both fixed window (freeze_start/end) and recurring window (rrule).") ∧
    (truthy inp.environment = true →
      ext.parseTZ (getInputD inp.timezone "UTC") = true →
      truthy inp.freeze_start = false → truthy inp.freeze_end = false →
      truthy inp.rrule = true →
      truthy inp.duration_minutes = false →
      main ext inp now = .fatal "Input 'duration_minutes' is required when using 'rrule'.") ∧
    (truthy inp.environment = true →
      ext.parseTZ (getInputD inp.timezone "UTC") = true →
      truthy inp.freeze_start = true → truthy inp.freeze_end = true →
      truthy inp.rrule = false →
      (ext.parseDate (inp.freeze_start.getD "") = none ∨
        ext.parseDate (inp.freeze_end.getD "") = none) →
      main ext inp now = .fatal "Failed to parse fixed window dates") ∧
    (truthy inp.environment = true →
      ext.parseTZ (getInputD inp.timezone "UTC") = true →
      truthy inp.freeze_start = false → truthy inp.freeze_end = false →
      truthy inp.rrule = true →
      truthy inp.duration_minutes = true →
      (ext.parseIntStr (inp.duration_minutes.getD "") = none ∨
        ext.parseRRule (inp.rrule.getD "") now = none) →
      main ext inp now = .fatal "Failed to process rrule") ∧
    ((main ext inp now).fatalQ = true →
      (main ext inp now).outputs = [] ∧ (main ext inp now).exitCodeOf = 1) := by
  refine ⟨?_, ?_, ?_, ?_, ?_, ?_, ?_⟩
  · intro h; simp [main, h]
  · intro h1 h2; simp [main, h1, h2]
  · intro h1 h2 h3 h4
    exact main_of_evalWindows_error ext inp now _ h1 h2 (evalWindows_mutex_error ext inp now h3 h4)
  · intro h1 h2 h3 h4 h5 h6
    exact main_of_evalWindows_error ext inp now _ h1 h2 (by simp [evalWindows, h3, h4, h5, h6])
  · intro h1 h2 h3 h4 h5 hd
    refine main_of_evalWindows_error ext inp now _ h1 h2 ?_
    rcases hd with hd | hd
    · simp [evalWindows, h3, h4, h5, hd]
    · cases hS : ext.parseDate (inp.freeze_start.getD "") <;>
        simp [evalWindows, h3, h4, h5, hS, hd]
  · intro h1 h2 h3 h4 h5 h6 hd
    refine main_of_evalWindows_error ext inp now _ h1 h2 ?_
    rcases hd with hd | hd
    · simp [evalWindows, h3, h4, h5, h6, hd]
    · cases hI : ext.parseIntStr (inp.duration_minutes.getD "") <;>
        simp [evalWindows, h3, h4, h5, h6, hI, hd]
  · cases hm : main ext inp now with
    | fatal m => intro _; exact ⟨rfl, rfl⟩
    | done r => intro hq; simp [Outcome.fatalQ] at hq

/-- Trivial oracles for the C9 witness: every parse fails. -/
def extC9 : Ext :=
  ⟨fun _ => true, fun _ => none, fun _ => none, fun _ _ => none, none, none, none⟩

/-- Witness for C9 at empty inputs (the required `environment` missing). -/
theorem fatal_errors_abort_before_output_witness :
    (truthy ({} : Inputs).environment = false →
      main extC9 {} 0 = .fatal "Input 'environment' is required.") ∧
    (truthy ({} : Inputs).environment = true →
      extC9.parseTZ (getInputD ({} : Inputs).timezone "UTC") = false →
      main extC9 {} 0 = .fatal ("Unknown timezone: " ++ getInputD ({} : Inputs).timezone "UTC")) ∧
    (truthy ({} : Inputs).environment = true →
      extC9.parseTZ (getInputD ({} : Inputs).timezone "UTC") = true →
      (truthy ({} : Inputs).freeze_start = true ∨ truthy ({} : Inputs).freeze_end = true) →
      truthy ({} : Inputs).rrule = true →
      main extC9 {} 0 =
        .fatal "Cannot specify both fixed window (freeze_start/end) and recurring window (rrule).") ∧
    (truthy ({} : Inputs).environment = true →
      extC9.parseTZ (getInputD ({} : Inputs).timezone "UTC") = true →
      truthy ({} : Inputs).freeze_start = false → truthy ({} : Inputs).freeze_end = false →
      truthy ({} : Inputs).rrule = true →
      truthy ({} : Inputs).duration_minutes = false →
      main extC9 {} 0 = .fatal "Input 'duration_minutes' is required when using 'rrule'.") ∧
    (truthy ({} : Inputs).environment = true →
      extC9.parseTZ (getInputD ({} : Inputs).timezone "UTC") = true →
      truthy ({} : Inputs).freeze_start = true → truthy ({} : Inputs).freeze_end = true →
      truthy ({} : Inputs).rrule = false →
      (extC9.parseDate (({} : Inputs).freeze_start.getD "") = none ∨
        extC9.parseDate (({} : Inputs).freeze_end.getD "") = none) →
      main extC9 {} 0 = .fatal "Failed to parse fixed window dates") ∧
    (truthy ({} : Inputs).environment = true →
      extC9.parseTZ (getInputD ({} : Inputs).timezone "UTC") = true →
      truthy ({} : Inputs).freeze_start = false → truthy ({} : Inputs).freeze_end = false →
      truthy ({} : Inputs).rrule = true →
      truthy ({} : Inputs).duration_minutes = true →
      (extC9.parseIntStr (({} : Inputs).duration_minutes.getD "") = none ∨
        extC9.parseRRule (({} : Inputs).rrule.getD "") 0 = none) →
      main extC9 {} 0 = .fatal "Failed to process rrule") ∧
    ((main extC9 {} 0).fatalQ = true →
      (main extC9 {} 0).outputs = [] ∧ (main extC9 {} 0).exitCodeOf = 1) :=
  fatal_errors_abort_before_output extC9 {} 0

/-- C10: supplying exactly one of `freeze_start` and `freeze_end` with no
`rrule` does not fail: the partial fixed window is silently ignored and the
run completes as if no window were configured — `is_frozen = false`,
`window_type = NONE`, decision `ALLOW`, exit code 0. -/
theorem partial_fixed_window_ignored (ext : Ext) (inp : Inputs) (now : Int)
    (henv : truthy inp.environment = true)
    (htz : ext.parseTZ (getInputD inp.timezone "UTC") = true)
    (hone : truthy inp.freeze_start ≠ truthy inp.freeze_end)
    (hnr : truthy inp.rrule = false) :
    ∃ r, main ext inp now = .done r ∧ r.is_frozen = false ∧
      r.window_type = "NONE" ∧ r.decision = "ALLOW" ∧ r.exit_code = 0 := by
  have hew : evalWindows ext inp now = .ok initState := by
    cases h1 : truthy inp.freeze_start <;> cases h2 : truthy inp.freeze_end <;>
      simp_all [evalWindows]
  refine ⟨assemble ext inp initState,
    main_of_evalWindows_ok ext inp now initState henv htz hew, ?_, ?_, ?_, ?_⟩ <;>
    simp [assemble, initState, resolveOverride, decisionOf]

/-- Witness for C10: only `freeze_start` supplied. -/
theorem partial_fixed_window_ignored_witness :
    ∃ r, main extC9
        { environment := some "production", freeze_start := some "2023-12-24T00:00" } 0 =
          .done r ∧
      r.is_frozen = false ∧ r.window_type = "NONE" ∧ r.decision = "ALLOW" ∧
      r.exit_code = 0 :=
  partial_fixed_window_ignored extC9
    { environment := some "production", freeze_start := some "2023-12-24T00:00" } 0
    rfl rfl (by decide) rfl

/-- Concrete oracles of the C4 counterexample run: `int("0")` parses to `0`,
the rule has an occurrence at every `t ≥ 0`. -/
def extC4 : Ext :=
  ⟨fun _ => true, fun _ => none, fun s => if s = "0" then some 0 else none,
   fun _ _ => some (fun t => if (0:Int) ≤ t then some 0 else none), none, none, none⟩

/-- Concrete inputs of the C4 counterexample run: `duration_minutes` supplied
as the string `"0"`. -/
def inpC4 : Inputs :=
  { environment := some "production", rrule := some "FREQ=WEEKLY;BYDAY=SA",
    duration_minutes := some "0" }

/-- C4 counterexample: a supplied `duration_minutes` of `"0"` does not abort —
the string `"0"` is truthy, so the only check (`if not duration_mins`) passes
and the run completes normally. -/
theorem duration_zero_accepted : (main extC4 inpC4 0).fatalQ = false := rfl

/-- C4 amended: with `rrule` supplied, a missing (unset or empty)
`duration_minutes` aborts fatally before window evaluation, but a supplied
zero or negative value is accepted without error and yields a window that is
never frozen, so the run completes with decision `ALLOW` and exit code 0. -/
theorem duration_required_amended (ext : Ext) (inp : Inputs) (now : Int)
    (henv : truthy inp.environment = true)
    (htz : ext.parseTZ (getInputD inp.timezone "UTC") = true)
    (hfs : truthy inp.freeze_start = false) (hfe : truthy inp.freeze_end = false)
    (hr : truthy inp.rrule = true) :
    (truthy inp.duration_minutes = false →
      main ext inp now = .fatal "Input 'duration_minutes' is required when using 'rrule'.") ∧
    (∀ D rule, truthy inp.duration_minutes = true →
      ext.parseIntStr (inp.duration_minutes.getD "") = some D → D ≤ 0 →
      ext.parseRRule (inp.rrule.getD "") now = some rule →
      (∀ t o, rule t = some o → o ≤ t) →
      ∃ r, main ext inp now = .done r ∧ r.is_frozen = false ∧
        r.decision = "ALLOW" ∧ r.exit_code = 0) := by
  constructor
  · intro hd
    exact main_of_evalWindows_error ext inp now _ henv htz
      (by simp [evalWindows, hfs, hfe, hr, hd])
  · intro D rule hd hpi hD hpr hcontract
    have hfz : recurringFrozen rule D now = false := by
      unfold recurringFrozen
      cases hocc : rule now with
      | none => rfl
      | some O =>
        have hO : O ≤ now := hcontract now O hocc
        simp only [decide_eq_false_iff_not]
        omega
    have hew : evalWindows ext inp now = .ok initState := by
      cases hocc : rule now with
      | none => simp [evalWindows, hfs, hfe, hr, hd, hpi, hpr, hocc]
      | some O => simp [evalWindows, hfs, hfe, hr, hd, hpi, hpr, hocc, hfz]
    refine ⟨assemble ext inp initState,
      main_of_evalWindows_ok ext inp now initState henv htz hew, ?_, ?_, ?_⟩ <;>
      simp [assemble, initState, resolveOverride, decisionOf]

/-- Trivial oracles for the C4 amended witness. -/
def extC4m : Ext :=
  ⟨fun _ => true, fun _ => none, fun _ => none, fun _ _ => none, none, none, none⟩

/-- Witness for the amended C4 at `rrule` supplied and `duration_minutes`
unset. -/
theorem duration_required_amended_witness :
    (truthy ({ environment := some "production", rrule := some "FREQ=DAILY" } : Inputs).duration_minutes = false →
      main extC4m { environment := some "production", rrule := some "FREQ=DAILY" } 0 =
        .fatal "Input 'duration_minutes' is required when using 'rrule'.") ∧
    (∀ D rule, truthy ({ environment := some "production", rrule := some "FREQ=DAILY" } : Inputs).duration_minutes = true →
      extC4m.parseIntStr (({ environment := some "production", rrule := some "FREQ=DAILY" } : Inputs).duration_minutes.getD "") = some D → D ≤ 0 →
      extC4m.parseRRule (({ environment := some "production", rrule := some "FREQ=DAILY" } : Inputs).rrule.getD "") 0 = some rule →
      (∀ t o, rule t = some o → o ≤ t) →
      ∃ r, main extC4m { environment := some "production", rrule := some "FREQ=DAILY" } 0 = .done r ∧
        r.is_frozen = false ∧ r.decision = "ALLOW" ∧ r.exit_code = 0) :=
  duration_required_amended extC4m
    { environment := some "production", rrule := some "FREQ=DAILY" } 0
    rfl rfl rfl rfl rfl

end FreezeEnforcer
